import Mathlib

/-!
# Verification of the ts_atbuilding_csc protocol core

A shallow embedding of the vent/fan controller protocol code:

* `MockVentController.read_and_dispatch` and the command handlers
  (src/python/lsst/ts/atbuilding/csc/mock_controller.py), modelled as pure
  state-passing functions over `ControllerState`;
* the change-driven publisher `MockVentController.monitor_status`, modelled
  as one polling tick `monitorTick` plus iteration `monitorRun`;
* the client-side demultiplexer `ATBuildingCsc.listen_for_messages` and the
  response wait of `ATBuildingCsc.run_command`
  (src/python/lsst/ts/atbuilding/csc/building_csc.py), modelled over
  `ClientState` with per-command FIFO response queues.

Wire messages are modelled as the structured record that the Python code
serializes to JSON (fields command / error / exception_name / message and
the optional data payload); the JSON text itself and the traceback field
are not modelled, since no verified property mentions them.
-/

namespace ATBuilding

/-- Modelled from the spec: the per-gate state enumeration (from ts_xml,
outside this repository) — "an array of per-gate states (enumerated:
opened/closed/unknown, fixed cardinality of 4)". -/
inductive VentGateState where
  | opened
  | closed
  | unknown
deriving DecidableEq, Repr

/-- Modelled from the spec: the fan drive state enumeration (from ts_xml,
outside this repository) — "fan drive operating state (enumerated:
stopped/operating/fault, etc.)". The mock controller only ever holds the
initial value `FanDriveState.STOPPED`. -/
inductive FanDriveState where
  | stopped
  | operating
  | fault
deriving DecidableEq, Repr

/-- The optional `data` payload of a wire message: absent for command
responses, a gate-state array for `evt_vent_gate_state`, a drive state for
`evt_extraction_fan_drive_state`, a fault code for
`evt_extraction_fan_drive_fault_code`, and the fan frequency mapping for
`telemetry` (mock_controller.py, monitor_status). The gate-state array is
kept as enum values; the Python code serializes them with `int(state)`. -/
inductive Payload where
  | none
  | gateStates (states : List VentGateState)
  | driveState (s : FanDriveState)
  | faultCode (code : Int)
  | telemetry (tel_extraction_fan : ℚ)
deriving DecidableEq, Repr

/-- One line of the wire protocol, as the structured record serialized by
`MockVentController.respond` (the `traceback` field is not modelled). -/
structure Message where
  command : String
  error : Nat
  exception_name : String
  message : String
  data : Payload := Payload.none
deriving DecidableEq, Repr

/-- A Python exception as observed by the dispatcher: its type name
(`type(e).__name__`) and its string rendering (`str(e)`). -/
structure PyExc where
  name : String
  msg : String
deriving DecidableEq, Repr

/-- Argument types appearing in the dispatch table (`int`, `float`,
`bool`). -/
inductive ArgType where
  | int
  | float
  | bool
deriving DecidableEq, Repr

/-- A typed argument value produced by `cast_string_to_type`. -/
inductive PyValue where
  | int (i : Int)
  | float (q : ℚ)
  | bool (b : Bool)
deriving DecidableEq, Repr

/-- The command signature table `self.dispatch_dict` built in
`MockVentController.__init__` (mock_controller.py lines 43-52). -/
def dispatch_dict : List (String × List ArgType) :=
  [("close_vent_gate", [ArgType.int, ArgType.int, ArgType.int, ArgType.int]),
   ("open_vent_gate", [ArgType.int, ArgType.int, ArgType.int, ArgType.int]),
   ("reset_extraction_fan_drive", []),
   ("set_extraction_fan_drive_freq", [ArgType.float]),
   ("set_extraction_fan_manual_control_mode", [ArgType.bool]),
   ("start_extraction_fan", []),
   ("stop_extraction_fan", []),
   ("ping", [])]

/-- The mutable state of `MockVentController` (mock_controller.py lines
60-71).  `pending_vent_tasks` records the `_set_vent_state` futures
scheduled with `asyncio.ensure_future` that have not yet run, in
scheduling order; `telemetry_count` is the publisher's tick-down counter. -/
structure ControllerState where
  fan_frequency : ℚ
  vent_states : List VentGateState
  manual_control_mode : Bool
  fault_codes : List Int
  fan_drive_state : FanDriveState
  extraction_fan_drive_was_reset : Bool
  telemetry_count : Int
  pending_vent_tasks : List (Nat × VentGateState)
deriving DecidableEq, Repr

/-- The state of a fresh `MockVentController` (mock_controller.py lines
60-71): fan off, all four gates closed, manual control on, eight fault
codes 22, drive stopped, telemetry counter 0, no transition scheduled. -/
def initialController : ControllerState where
  fan_frequency := 0
  vent_states := List.replicate 4 VentGateState.closed
  manual_control_mode := true
  fault_codes := List.replicate 8 22
  fan_drive_state := FanDriveState.stopped
  extraction_fan_drive_was_reset := false
  telemetry_count := 0
  pending_vent_tasks := []

/-! ## Tokenization

Python's `data.split()` splits on runs of whitespace and drops empty
tokens; `data.strip()` is empty exactly when every character of the line
is whitespace. `read_and_dispatch` strips the line, returns early when the
result is empty, and otherwise tokenizes (stripping first does not change
the token list, so `pyTokens` works on the raw line). -/

/-- Accumulating tokenizer: `acc` holds the characters of the token in
progress, reversed. -/
def tokensAux : List Char → List Char → List String
  | [], acc => if acc.isEmpty then [] else [String.mk acc.reverse]
  | c :: cs, acc =>
    if c.isWhitespace then
      if acc.isEmpty then tokensAux cs []
      else String.mk acc.reverse :: tokensAux cs []
    else tokensAux cs (c :: acc)

/-- Python `line.split()`: whitespace-separated tokens, empties dropped. -/
def pyTokens (line : String) : List String :=
  tokensAux line.data []

/-- Python `not line.strip()`: true iff every character is whitespace. -/
def pyStrippedEmpty (line : String) : Bool :=
  line.data.all Char.isWhitespace

/-! ## Argument casting

`cast_string_to_type` lives in `lsst.ts.vent.controller`
(repository ts_atbuilding_vents), outside this repository. Modelled from
the spec: the Command Signature Table is "used both to validate arity/type
and to convert string tokens to typed arguments before dispatch", and the
dispatcher "converts each token to its declared type (fails the whole
command with a type-conversion error if any token is unparsable)" (§4.5,
§3). Integer and float literals parse with their usual meaning; an
unparsable token raises ValueError, as Python's `int`/`float`
constructors do. -/

/-- The decimal value of a nonempty digit run (`none` on any non-digit or
on the empty run). -/
def digitsValAux : List Char → Nat → Option Nat
  | [], acc => some acc
  | c :: cs, acc =>
    if c.isDigit then digitsValAux cs (acc * 10 + (c.toNat - 48))
    else Option.none

/-- The decimal value of a nonempty digit run. -/
def digitsVal : List Char → Option Nat
  | [] => Option.none
  | cs => digitsValAux cs 0

/-- Parse an unsigned float literal `digits[.digits]` as (scaled mantissa,
power-of-ten denominator): `12.5` gives `(125, 10)`. -/
def ufloatParts (cs : List Char) : Option (Nat × Nat) :=
  match cs.splitOn '.' with
  | [a] => (digitsVal a).map (fun n => (n, 1))
  | [a, b] =>
    match digitsVal a, digitsVal b with
    | some n, some f => some (n * 10 ^ b.length + f, 10 ^ b.length)
    | _, _ => Option.none
  | _ => Option.none

/-- Parse an optionally negated integer literal. -/
def pyParseInt : List Char → Option Int
  | '-' :: rest => (digitsVal rest).map (fun n => -(n : Int))
  | cs => (digitsVal cs).map Int.ofNat

/-- Parse an optionally negated float literal as a rational. -/
def pyParseFloat : List Char → Option ℚ
  | '-' :: rest => (ufloatParts rest).map (fun p => mkRat (-(p.1 : Int)) p.2)
  | cs => (ufloatParts cs).map (fun p => mkRat p.1 p.2)

/-- Modelled from the spec: `cast_string_to_type t arg` converts the
string token `arg` to the declared type `t`, raising a type-conversion
error when the token is unparsable (the function itself is in the
ts_atbuilding_vents repository, outside src/). Plain decimal integer and
float literals carry their usual value; the exotic forms Python's
constructors also accept (exponents, underscores, infinities) are outside
the inputs exercised here. -/
def cast_string_to_type (t : ArgType) (arg : String) : Except PyExc PyValue :=
  match t with
  | ArgType.int =>
    match pyParseInt arg.data with
    | some i => Except.ok (PyValue.int i)
    | Option.none =>
      Except.error ⟨"ValueError", "invalid literal for int() with base 10: " ++ arg⟩
  | ArgType.float =>
    match pyParseFloat arg.data with
    | some q => Except.ok (PyValue.float q)
    | Option.none =>
      Except.error ⟨"ValueError", "could not convert string to float: " ++ arg⟩
  | ArgType.bool =>
    match arg with
    | "True" => Except.ok (PyValue.bool true)
    | "False" => Except.ok (PyValue.bool false)
    | _ => Except.error ⟨"ValueError", "could not convert string to bool: " ++ arg⟩

/-- The list comprehension `[cast_string_to_type(t, arg) for t, arg in
zip(types, args)]` (mock_controller.py line 129); the first failing cast
raises, aborting the command. Arity equality is checked before this runs,
so the zip truncation never matters. -/
def castArgs : List ArgType → List String → Except PyExc (List PyValue)
  | [], _ => Except.ok []
  | _, [] => Except.ok []
  | t :: ts, a :: as' =>
    match cast_string_to_type t a with
    | Except.error e => Except.error e
    | Except.ok v =>
      match castArgs ts as' with
      | Except.error e => Except.error e
      | Except.ok vs => Except.ok (v :: vs)

/-! ## Command handlers (mock_controller.py lines 158-210) -/

/-- One iteration of the `for gate in (gate1, ...)` loop body shared by
`close_vent_gate` and `open_vent_gate` (mock_controller.py lines 165-175
and 180-190), with `target` the goal state. The range guard transcribes
the Python condition `not gate >= 0 and gate <= 3` with Python's
precedence: `(not (gate >= 0)) and (gate <= 3)`. When the guard does not
fire and `gate` is out of range, the list access `self.vent_states[gate]`
raises IndexError. A gate not already in the target state gets a
`_set_vent_state(gate, target)` future scheduled via
`asyncio.ensure_future`. -/
def ventGateStep (target : VentGateState) (st : ControllerState) (gate : Int) :
    ControllerState × Option PyExc :=
  if gate = -1 then (st, Option.none)
  else if (¬ gate ≥ 0) ∧ gate ≤ 3 then
    (st, some ⟨"ValueError", "Invalid gate number: " ++ toString gate⟩)
  else
    match st.vent_states.get? gate.toNat with
    | Option.none => (st, some ⟨"IndexError", "list index out of range"⟩)
    | some s =>
      if s ≠ target then
        ({st with pending_vent_tasks := st.pending_vent_tasks ++ [(gate.toNat, target)]},
         Option.none)
      else (st, Option.none)

/-- The whole gate loop: iterates `ventGateStep` over the four gate
arguments, aborting at the first exception (futures already scheduled
before the exception stay scheduled). -/
def ventGateLoop (target : VentGateState) :
    ControllerState → List Int → ControllerState × Option PyExc
  | st, [] => (st, Option.none)
  | st, g :: gs =>
    match ventGateStep target st g with
    | (st', Option.none) => ventGateLoop target st' gs
    | (st', some e) => (st', some e)

/-- `await getattr(self, command)(*args)` (mock_controller.py line 131):
invoke the handler method named by the command. The fallback branch is
unreachable because the dispatcher has already matched the argument list
against the command's signature. -/
def invokeHandler (st : ControllerState) (command : String) (args : List PyValue) :
    ControllerState × Option PyExc :=
  match command, args with
  | "close_vent_gate", [PyValue.int g1, PyValue.int g2, PyValue.int g3, PyValue.int g4] =>
    ventGateLoop VentGateState.closed st [g1, g2, g3, g4]
  | "open_vent_gate", [PyValue.int g1, PyValue.int g2, PyValue.int g3, PyValue.int g4] =>
    ventGateLoop VentGateState.opened st [g1, g2, g3, g4]
  | "reset_extraction_fan_drive", [] =>
    ({st with extraction_fan_drive_was_reset := true}, Option.none)
  | "set_extraction_fan_drive_freq", [PyValue.float q] =>
    ({st with fan_frequency := q}, Option.none)
  | "set_extraction_fan_manual_control_mode", [PyValue.bool b] =>
    ({st with manual_control_mode := b}, Option.none)
  | "start_extraction_fan", [] => ({st with fan_frequency := 50}, Option.none)
  | "stop_extraction_fan", [] => ({st with fan_frequency := 0}, Option.none)
  | "ping", [] => (st, Option.none)
  | _, _ => (st, some ⟨"TypeError", "unreachable: signature already checked"⟩)

/-- A success response (mock_controller.py lines 133-143). -/
def okMsg (command : String) : Message :=
  { command := command, error := 0, exception_name := "", message := "" }

/-- An error response (mock_controller.py: the NotImplementedError,
TypeError and handler-exception branches). -/
def errMsg (command exception_name message : String) : Message :=
  { command := command, error := 1, exception_name := exception_name,
    message := message }

/-- `MockVentController.read_and_dispatch` (mock_controller.py lines
80-156): strip the line and return silently when empty; tokenize; respond
NotImplementedError for an unregistered command name; respond TypeError on
arity mismatch; otherwise cast the arguments and invoke the handler,
responding error=0 on normal return and error=1 with the exception's name
and message when the cast or the handler raises. Returns the new
controller state and the list of response lines written for this line. -/
def read_and_dispatch (st : ControllerState) (line : String) :
    ControllerState × List Message :=
  if pyStrippedEmpty line then (st, [])
  else
    match pyTokens line with
    | [] => (st, [])
    | command :: args =>
      match dispatch_dict.lookup command with
      | Option.none =>
        (st, [errMsg command "NotImplementedError" "No such command"])
      | some types =>
        if args.length ≠ types.length then
          (st, [errMsg command "TypeError"
            ("Error while handling command " ++ command ++ ".")])
        else
          match castArgs types args with
          | Except.error e => (st, [errMsg command e.name e.msg])
          | Except.ok vals =>
            match invokeHandler st command vals with
            | (st', Option.none) => (st', [okMsg command])
            | (st', some e) => (st', [errMsg command e.name e.msg])

/-- Run the earliest pending `_set_vent_state` future to completion
(mock_controller.py lines 158-160): after its 1-second settling sleep it
writes the target state into the gate's slot. -/
def applyVentTask (st : ControllerState) : ControllerState :=
  match st.pending_vent_tasks with
  | [] => st
  | (g, s) :: rest =>
    {st with vent_states := st.vent_states.set g s, pending_vent_tasks := rest}

/-! ## Change-driven publisher (mock_controller.py, monitor_status) -/

/-- The loop-local snapshot variables of `MockVentController.monitor_status`
(mock_controller.py lines 224-227): the last-published gate-state array,
fault code and fan drive state, all starting as `None`. -/
structure MonitorState where
  vent_state : Option (List VentGateState)
  last_fault : Option Int
  fan_drive_state : Option FanDriveState
deriving DecidableEq, Repr

/-- The snapshot state at the top of a fresh `monitor_status` call. -/
def initialMonitor : MonitorState :=
  ⟨Option.none, Option.none, Option.none⟩

/-- The `evt_vent_gate_state` push message (mock_controller.py lines
238-249). -/
def ventGateEvt (states : List VentGateState) : Message :=
  { command := "evt_vent_gate_state", error := 0, exception_name := "",
    message := "", data := Payload.gateStates states }

/-- The `evt_extraction_fan_drive_state` push message (lines 257-268). -/
def fanDriveEvt (s : FanDriveState) : Message :=
  { command := "evt_extraction_fan_drive_state", error := 0,
    exception_name := "", message := "", data := Payload.driveState s }

/-- The `evt_extraction_fan_drive_fault_code` push message (lines
274-285). -/
def faultCodeEvt (code : Int) : Message :=
  { command := "evt_extraction_fan_drive_fault_code", error := 0,
    exception_name := "", message := "", data := Payload.faultCode code }

/-- The `telemetry` push message (lines 292-306): the payload is the
mapping holding `tel_extraction_fan`, the current fan frequency. -/
def telemetryMsg (fan_frequency : ℚ) : Message :=
  { command := "telemetry", error := 0, exception_name := "", message := "",
    data := Payload.telemetry fan_frequency }

/-- `TELEMETRY_INTERVAL` (mock_controller.py line 71). -/
def TELEMETRY_INTERVAL : Int := 10

/-- One pass of the `while self.connected` polling loop of
`MockVentController.monitor_status` (mock_controller.py lines 229-312):
publish a gate-state event if the array differs from the snapshot, then a
drive-state event, then a fault-code event, each updating its snapshot;
finally decrement `telemetry_count` and, when it drops below zero, reset
it to `TELEMETRY_INTERVAL` and publish telemetry. Returns the updated
controller state (the counter lives on the controller), the updated
snapshots, and the messages written this tick, in emission order.
The three comparisons read and update pairwise disjoint snapshot fields,
so the loop body's sequential updates are rendered as independent
conditionals; after a tick every snapshot field holds the current value
whether or not its event fired, exactly as in the Python code (updating
an unchanged snapshot writes back the value it already holds). -/
def monitorTick (st : ControllerState) (ms : MonitorState) :
    ControllerState × MonitorState × List Message :=
  let new_last_fault : Int := st.fault_codes.headD 22
  let msgs₁ : List Message :=
    if ms.vent_state = some st.vent_states then []
    else [ventGateEvt st.vent_states]
  let msgs₂ : List Message :=
    if ms.fan_drive_state = some st.fan_drive_state then []
    else [fanDriveEvt st.fan_drive_state]
  let msgs₃ : List Message :=
    if ms.last_fault = some new_last_fault then []
    else [faultCodeEvt new_last_fault]
  let ms' : MonitorState :=
    ⟨some st.vent_states, some new_last_fault, some st.fan_drive_state⟩
  let st' : ControllerState :=
    if st.telemetry_count - 1 < 0 then
      {st with telemetry_count := TELEMETRY_INTERVAL}
    else {st with telemetry_count := st.telemetry_count - 1}
  let msgs₄ : List Message :=
    if st.telemetry_count - 1 < 0 then [telemetryMsg st.fan_frequency] else []
  (st', ms', msgs₁ ++ msgs₂ ++ msgs₃ ++ msgs₄)

/-- All messages published by `n` consecutive polling ticks, with no
command or gate transition interleaved. -/
def monitorRun : Nat → ControllerState → MonitorState → List Message
  | 0, _, _ => []
  | n + 1, st, ms =>
    let r := monitorTick st ms
    r.2.2 ++ monitorRun n r.1 r.2.1

/-- Messages written by `MockVentController.on_connect` itself
(mock_controller.py lines 212-217): it logs and spawns the
`monitor_status` task, writing nothing to the socket. -/
def on_connect_messages : List Message := []

/-! ## Client side: demultiplexer and command correlation
(building_csc.py) -/

/-- The keys of `self.callbacks` built in `ATBuildingCsc.__init__`
(building_csc.py lines 108-113): inbound messages with these command
names are handed to push-message handlers. -/
def callbackNames : List String :=
  ["telemetry", "evt_extraction_fan_drive_fault_code",
   "evt_extraction_fan_drive_state", "evt_vent_gate_state"]

/-- The client-side connection state: whether the tcpip client is
connected, and `self.response_queue`, the
`defaultdict(asyncio.Queue)` of per-command-name FIFO response queues
(building_csc.py lines 104-106); a name never written to holds the empty
queue. -/
structure ClientState where
  connected : Bool
  queues : String → List Message

/-- A fresh client: connected, all response queues empty. -/
def initialClient : ClientState :=
  ⟨true, fun _ => []⟩

/-- Where `listen_for_messages` routed an inbound message. -/
inductive Routed where
  | callback (name : String) (m : Message)
  | queued
deriving DecidableEq, Repr

/-- The body of the `ATBuildingCsc.listen_for_messages` loop for one
decoded inbound message (building_csc.py lines 393-402): a message whose
command is a callback name is handed to that push-message handler;
any other message is appended to `self.response_queue[command]` — the
defaultdict creates the queue on first use. -/
def listen_step (c : ClientState) (m : Message) : ClientState × Routed :=
  if m.command ∈ callbackNames then (c, Routed.callback m.command m)
  else
    ({c with queues := fun k =>
        if k = m.command then c.queues m.command ++ [m] else c.queues k},
     Routed.queued)

/-- How the response wait of `ATBuildingCsc.run_command` can end. The
constructor `connectionClosed` is the terminal error the specification
posits for a dropped connection; it is part of the outcome vocabulary so
that its absence from the code's behaviour can be stated. -/
inductive CommandOutcome where
  | ok (m : Message)
  | commandError (m : Message)
  | timeoutError
  | connectionClosed
deriving DecidableEq, Repr

/-- The response wait of `ATBuildingCsc.run_command` (building_csc.py
lines 359-375): `asyncio.wait_for(self.response_queue[command_name].get(),
timeout=TCP_TIMEOUT)` consumes the first message available on the queue —
`queue` holds the queue content when the wait starts and `arrivals` the
responses the demultiplexer delivers to this queue before `TCP_TIMEOUT`
elapses. If neither yields a message the wait raises
`asyncio.TimeoutError`. A message with nonzero `error` is re-raised as
`salobj.ExpectedError` (modelled as `commandError`); otherwise the
message is returned. -/
def awaitCommandResponse (queue arrivals : List Message) : CommandOutcome :=
  match queue ++ arrivals with
  | [] => CommandOutcome.timeoutError
  | m :: _ =>
    if m.error ≠ 0 then CommandOutcome.commandError m else CommandOutcome.ok m

/-- `ATBuildingCsc.disconnect` (building_csc.py lines 265-275): closes the
tcpip client and cancels the connect and listen tasks. It neither removes
nor adds anything on `self.response_queue`, and it delivers nothing to
waits pending on those queues; once the client is closed the
`listen_for_messages` loop exits, so no further arrivals occur. -/
def disconnect (c : ClientState) : ClientState :=
  {c with connected := false}

/-- The connection-level actions of `ATBuildingCsc.connect`.
`readAndDiscardBanner` is the banner read the specification posits
("strips/validates a banner on connect"); it is part of the action
vocabulary so that its absence from the code's success path can be
stated. -/
inductive ConnectAction where
  | openSocket
  | startDemultiplexer
  | readAndDiscardBanner
  | sendCommand (command : String)
deriving DecidableEq, Repr

/-- The success path of `ATBuildingCsc.connect` (building_csc.py lines
229-247), in program order: construct the `tcpip.Client` and await its
`start_task` (line 230-233), start `listen_for_messages` as a background
task (line 234), and — when the `evt_maximumDriveFrequency` topic exists —
issue the `get_fan_drive_max_frequency` command (lines 237-241). No read
of the socket happens outside the demultiplexer. -/
def connectActions : List ConnectAction :=
  [ConnectAction.openSocket, ConnectAction.startDemultiplexer,
   ConnectAction.sendCommand "get_fan_drive_max_frequency"]

/-! ## Helper lemmas -/

/-- A token under construction is never lost: with a nonempty accumulator
the tokenizer returns at least one token. -/
theorem tokensAux_ne_nil_of_acc (cs : List Char) :
    ∀ acc : List Char, acc ≠ [] → tokensAux cs acc ≠ [] := by
  induction cs with
  | nil =>
    intro acc h
    cases acc with
    | nil => exact absurd rfl h
    | cons a as => simp [tokensAux]
  | cons c cs ih =>
    intro acc h
    cases acc with
    | nil => exact absurd rfl h
    | cons a as =>
      unfold tokensAux
      by_cases hw : c.isWhitespace
      · simp [hw]
      · simp only [hw, if_false]
        exact ih (c :: a :: as) (by simp)

/-- A character list containing a non-whitespace character tokenizes to a
nonempty token list. -/
theorem tokensAux_ne_nil (cs : List Char) (h : cs.all Char.isWhitespace = false) :
    ∀ acc : List Char, tokensAux cs acc ≠ [] := by
  induction cs with
  | nil => simp at h
  | cons c cs ih =>
    intro acc
    unfold tokensAux
    by_cases hw : c.isWhitespace
    · have h' : cs.all Char.isWhitespace = false := by
        simpa [List.all_cons, hw] using h
      by_cases ha : acc.isEmpty <;> simp [hw, ha]
      · exact ih h' []
    · simp only [hw, if_false]
      exact tokensAux_ne_nil_of_acc cs (c :: acc) (by simp)

/-- A line that does not strip to empty yields at least one token — the
Python invariant that makes `command, *args = data.split()` safe after the
`if not data` guard. -/
theorem pyTokens_ne_nil (line : String) (h : pyStrippedEmpty line = false) :
    pyTokens line ≠ [] :=
  tokensAux_ne_nil line.data h []

/-- A polling tick never changes the fan frequency: it only touches the
telemetry counter on the controller. -/
theorem monitorTick_fan_frequency (st : ControllerState) (ms : MonitorState) :
    ((monitorTick st ms).1).fan_frequency = st.fan_frequency := by
  unfold monitorTick
  dsimp only
  split <;> rfl

/-- Every message a polling tick emits is one of the three change events
or the telemetry message, built from the current controller state. -/
theorem monitorTick_messages (st : ControllerState) (ms : MonitorState)
    (m : Message) (hm : m ∈ (monitorTick st ms).2.2) :
    m = ventGateEvt st.vent_states ∨ m = fanDriveEvt st.fan_drive_state ∨
      m = faultCodeEvt (st.fault_codes.headD 22) ∨
      m = telemetryMsg st.fan_frequency := by
  unfold monitorTick at hm
  dsimp only at hm
  simp only [List.mem_append] at hm
  rcases hm with ((h | h) | h) | h
  · split at h
    · simp at h
    · simp only [List.mem_singleton] at h; exact Or.inl h
  · split at h
    · simp at h
    · simp only [List.mem_singleton] at h; exact Or.inr (Or.inl h)
  · split at h
    · simp at h
    · simp only [List.mem_singleton] at h; exact Or.inr (Or.inr (Or.inl h))
  · split at h
    · simp only [List.mem_singleton] at h; exact Or.inr (Or.inr (Or.inr h))
    · simp at h

/-- Every telemetry message emitted over any number of polling ticks
reports the controller's fan frequency at the start of the run (no tick
changes the frequency). -/
theorem monitorRun_telemetry (n : Nat) :
    ∀ (st : ControllerState) (ms : MonitorState), ∀ m ∈ monitorRun n st ms,
      m.command = "telemetry" → m.data = Payload.telemetry st.fan_frequency := by
  induction n with
  | zero => intro st ms m hm; simp [monitorRun] at hm
  | succ n ih =>
    intro st ms m hm hcmd
    rw [monitorRun] at hm
    rcases List.mem_append.mp hm with h | h
    · rcases monitorTick_messages st ms m h with h1 | h1 | h1 | h1 <;> subst h1
      · simp [ventGateEvt] at hcmd
      · simp [fanDriveEvt] at hcmd
      · simp [faultCodeEvt] at hcmd
      · rfl
    · have h2 := ih (monitorTick st ms).1 (monitorTick st ms).2.1 m h hcmd
      rwa [monitorTick_fan_frequency] at h2

/-! ## C1 — one response per inbound command line -/

/-- Claim C1 counterexample: the line consisting of a single space is a
non-empty inbound line, yet `read_and_dispatch` emits zero response lines
for it (the `if not data: return` guard fires after stripping), not
exactly one as the claim states for every non-empty line. -/
theorem C1_whitespace_line_counterexample :
    (" " : String) ≠ "" ∧
    ((read_and_dispatch initialController " ").2).length = 0 ∧
    ((read_and_dispatch initialController " ").2).length ≠ 1 := by
  refine ⟨by decide, by decide, by decide⟩

/-- Claim C1 (amended): for every inbound line that is non-empty after
stripping whitespace — whatever the command name, the token count, and
whether the cast or the handler raises — `read_and_dispatch` emits exactly
one response line; a line of only whitespace emits none. -/
theorem C1_one_response_per_nonblank_line (st : ControllerState)
    (line : String) (h : pyStrippedEmpty line = false) :
    ((read_and_dispatch st line).2).length = 1 := by
  unfold read_and_dispatch
  rw [if_neg (by simp [h])]
  rcases htok : pyTokens line with _ | ⟨cmd, args⟩
  · exact absurd htok (pyTokens_ne_nil line h)
  · rcases hlk : dispatch_dict.lookup cmd with _ | tys <;> simp only [hlk]
    · simp
    · by_cases hlen : args.length = tys.length
      · rw [if_neg (by simp [hlen])]
        rcases hc : castArgs tys args with e | vals <;> simp only [hc]
        · simp
        · rcases hi : invokeHandler st cmd vals with ⟨st', e⟩
          rcases e with _ | e <;> simp [hi]
      · rw [if_pos hlen]
        simp

/-- Witness for C1: the line `ping` is non-blank and gets exactly one
response. -/
theorem C1_one_response_witness :
    pyStrippedEmpty "ping" = false ∧
    ((read_and_dispatch initialController "ping").2).length = 1 :=
  ⟨by decide, C1_one_response_per_nonblank_line initialController "ping" (by decide)⟩

/-! ## C2 — routing of responses with no pending request -/

/-- Claim C2 counterexample: a response line for `ping` arriving while no
request is pending is not discarded — `listen_for_messages` appends it to
`response_queue["ping"]` — and it does affect the next command: a
subsequent `run_command("ping")` consumes the stale message as its
response, ahead of the genuine response that arrives later. -/
theorem C2_stale_response_counterexample :
    ((listen_step initialClient (okMsg "ping")).1).queues "ping"
        = [okMsg "ping"] ∧
    awaitCommandResponse
        (((listen_step initialClient (okMsg "ping")).1).queues "ping")
        [errMsg "ping" "NotImplementedError" "No such command"]
      = CommandOutcome.ok (okMsg "ping") := by
  refine ⟨by decide, by decide⟩

/-- Claim C2 (amended): an inbound line whose command matches no
push-message callback is routed to the per-command response queue without
raising and without a warning — appended to `response_queue[command]`,
other queues untouched — rather than discarded; if that queue was empty
(no pending request), the next `run_command` with the same command name
resolves with this stale message. -/
theorem C2_unmatched_response_queued (c : ClientState) (m : Message)
    (hm : m.command ∉ callbackNames) :
    (listen_step c m).2 = Routed.queued ∧
    (listen_step c m).1.queues m.command = c.queues m.command ++ [m] ∧
    (∀ k, k ≠ m.command → (listen_step c m).1.queues k = c.queues k) ∧
    (c.queues m.command = [] → ∀ arrivals : List Message,
      awaitCommandResponse ((listen_step c m).1.queues m.command) arrivals
        = if m.error ≠ 0 then CommandOutcome.commandError m
          else CommandOutcome.ok m) := by
  unfold listen_step
  rw [if_neg hm]
  refine ⟨rfl, by simp, fun k hk => by simp [hk], fun hq arrivals => ?_⟩
  simp only [if_pos rfl, hq]
  rfl

/-- Witness for C2: a stale `ping` success response is enqueued on the
`ping` response queue. -/
theorem C2_unmatched_response_queued_witness :
    (okMsg "ping").command ∉ callbackNames ∧
    (listen_step initialClient (okMsg "ping")).1.queues (okMsg "ping").command
      = initialClient.queues (okMsg "ping").command ++ [okMsg "ping"] :=
  ⟨by decide,
   (C2_unmatched_response_queued initialClient (okMsg "ping") (by decide)).2.1⟩

/-! ## C3 — fate of a pending command wait when the connection closes -/

/-- Claim C3 counterexample: with a `ping` command outstanding (its
response queue empty), closing the connection delivers nothing to the
wait; `run_command`'s `asyncio.wait_for` then resolves with
`asyncio.TimeoutError`, which is not the `ConnectionClosed` terminal
error the claim requires. -/
theorem C3_timeout_counterexample :
    (disconnect initialClient).connected = false ∧
    awaitCommandResponse ((disconnect initialClient).queues "ping") []
      = CommandOutcome.timeoutError ∧
    CommandOutcome.timeoutError ≠ CommandOutcome.connectionClosed := by
  refine ⟨by decide, by decide, by decide⟩

/-- Claim C3 (amended): closing the connection while a command's
response-wait is outstanding leaves every response queue untouched and
delivers nothing to it, so the wait resolves with the
`asyncio.TimeoutError` of `asyncio.wait_for` after `TCP_TIMEOUT` — it does
not hang, but no wait ever resolves with a `ConnectionClosed` error (the
code has no such mechanism). -/
theorem C3_pending_wait_times_out (c : ClientState) (name : String)
    (hq : c.queues name = []) :
    (disconnect c).queues name = c.queues name ∧
    awaitCommandResponse ((disconnect c).queues name) []
      = CommandOutcome.timeoutError ∧
    ∀ (queue arrivals : List Message),
      awaitCommandResponse queue arrivals ≠ CommandOutcome.connectionClosed := by
  refine ⟨rfl, ?_, ?_⟩
  · show awaitCommandResponse (c.queues name) [] = CommandOutcome.timeoutError
    rw [hq]
    rfl
  · intro queue arrivals
    unfold awaitCommandResponse
    rcases queue ++ arrivals with _ | ⟨m, rest⟩
    · simp
    · by_cases h : m.error ≠ 0 <;> simp [h]

/-- Witness for C3: a fresh client with an empty `ping` queue, after
disconnect, times out. -/
theorem C3_pending_wait_times_out_witness :
    initialClient.queues "ping" = [] ∧
    awaitCommandResponse ((disconnect initialClient).queues "ping") []
      = CommandOutcome.timeoutError :=
  ⟨by decide, (C3_pending_wait_times_out initialClient "ping" (by decide)).2.1⟩

/-! ## C4 — no banner on connect -/

/-- Claim C4 counterexample: the server's connect callback writes nothing;
the first line the server sends after connect is the initial
`evt_vent_gate_state` push message from the status monitor, whose command
is a registered callback name, so the client routes it as a push message;
and the client's `connect` performs no read-and-discard of a banner. -/
theorem C4_no_banner_counterexample :
    on_connect_messages = [] ∧
    ConnectAction.readAndDiscardBanner ∉ connectActions ∧
    ((monitorTick initialController initialMonitor).2.2.head?).map
        Message.command = some "evt_vent_gate_state" ∧
    "evt_vent_gate_state" ∈ callbackNames := by
  refine ⟨rfl, by decide, by decide, by decide⟩

/-- Claim C4 (amended): on connect no banner is sent or read. The mock
server's `on_connect` writes nothing; the lines it then sends from the
first monitor tick are the three initial change events and telemetry, and
the client demultiplexer routes every one of them to its push-message
callback. The client's `connect` success path opens the socket, starts
the demultiplexer, and issues `get_fan_drive_max_frequency` — it contains
no banner read. -/
theorem C4_no_banner_all_lines_demultiplexed :
    on_connect_messages = [] ∧
    ConnectAction.readAndDiscardBanner ∉ connectActions ∧
    (monitorTick initialController initialMonitor).2.2
      = [ventGateEvt (List.replicate 4 VentGateState.closed),
         fanDriveEvt FanDriveState.stopped, faultCodeEvt 22, telemetryMsg 0] ∧
    ((monitorTick initialController initialMonitor).2.2.map
        (fun m => (listen_step initialClient m).2))
      = [Routed.callback "evt_vent_gate_state"
           (ventGateEvt (List.replicate 4 VentGateState.closed)),
         Routed.callback "evt_extraction_fan_drive_state"
           (fanDriveEvt FanDriveState.stopped),
         Routed.callback "evt_extraction_fan_drive_fault_code"
           (faultCodeEvt 22),
         Routed.callback "telemetry" (telemetryMsg 0)] := by
  refine ⟨rfl, by decide, by decide, by decide⟩

/-! ## C5 — out-of-range gate arguments -/

/-- Claim C5: the range guard `not gate >= 0 and gate <= 3` parses as
`(not (gate >= 0)) and (gate <= 3)`, so it never fires for a gate above 3:
`open_vent_gate 4 -1 -1 -1` and `close_vent_gate 4 -1 -1 -1` fall through
to `self.vent_states[4]` and the dispatcher reports IndexError, not the
ValueError the claim requires; only gates below −1 get the intended
ValueError. -/
theorem C5_gate_four_raises_index_error :
    read_and_dispatch initialController "open_vent_gate 4 -1 -1 -1"
      = (initialController,
         [errMsg "open_vent_gate" "IndexError" "list index out of range"]) ∧
    read_and_dispatch initialController "close_vent_gate 4 -1 -1 -1"
      = (initialController,
         [errMsg "close_vent_gate" "IndexError" "list index out of range"]) ∧
    read_and_dispatch initialController "open_vent_gate -2 -1 -1 -1"
      = (initialController,
         [errMsg "open_vent_gate" "ValueError" "Invalid gate number: -2"]) ∧
    ("IndexError" : String) ≠ "ValueError" := by
  refine ⟨by decide, by decide, by decide, by decide⟩

/-! ## C6 — unregistered command name -/

/-- Claim C6: for every inbound line whose first token is not in the
command signature table, the dispatcher responds with error=1 and
exception_name NotImplementedError, and the controller state is returned
unchanged — no handler runs. -/
theorem C6_unknown_command_not_implemented (st : ControllerState)
    (line : String) (cmd : String) (args : List String)
    (h : pyStrippedEmpty line = false)
    (htok : pyTokens line = cmd :: args)
    (hlk : dispatch_dict.lookup cmd = Option.none) :
    read_and_dispatch st line
      = (st, [errMsg cmd "NotImplementedError" "No such command"]) := by
  unfold read_and_dispatch
  rw [if_neg (by simp [h]), htok]
  simp [hlk]

/-- Witness for C6: the unregistered line `foo bar`. -/
theorem C6_unknown_command_witness :
    pyStrippedEmpty "foo bar" = false ∧
    dispatch_dict.lookup "foo" = Option.none ∧
    read_and_dispatch initialController "foo bar"
      = (initialController,
         [errMsg "foo" "NotImplementedError" "No such command"]) :=
  ⟨by decide, by decide,
   C6_unknown_command_not_implemented initialController "foo bar" "foo" ["bar"]
     (by decide) (by decide) (by decide)⟩

/-! ## C7 — registered command with wrong token count -/

/-- Claim C7: for every inbound line whose first token is a registered
command but whose argument token count differs from the signature's arity,
the dispatcher responds with error=1 and exception_name TypeError, and the
controller state is returned unchanged — no handler runs. -/
theorem C7_arity_mismatch_type_error (st : ControllerState)
    (line : String) (cmd : String) (args : List String)
    (types : List ArgType)
    (h : pyStrippedEmpty line = false)
    (htok : pyTokens line = cmd :: args)
    (hlk : dispatch_dict.lookup cmd = some types)
    (hlen : args.length ≠ types.length) :
    read_and_dispatch st line
      = (st, [errMsg cmd "TypeError"
          ("Error while handling command " ++ cmd ++ ".")]) := by
  unfold read_and_dispatch
  rw [if_neg (by simp [h]), htok]
  simp only [hlk]
  rw [if_pos hlen]

/-- Witness for C7: `ping 1` supplies one argument to the zero-argument
`ping`. -/
theorem C7_arity_mismatch_witness :
    dispatch_dict.lookup "ping" = some [] ∧
    read_and_dispatch initialController "ping 1"
      = (initialController,
         [errMsg "ping" "TypeError" "Error while handling command ping."]) :=
  ⟨by decide,
   C7_arity_mismatch_type_error initialController "ping 1" "ping" ["1"] []
     (by decide) (by decide) (by decide) (by decide)⟩

/-! ## C8 — opening gate 0 from all-closed -/

/-- The concrete connection scenario for claim C8: one monitor tick after
connect (publishing the initial state), then the command
`open_vent_gate 0 -1 -1 -1`. -/
def openScene₀ : ControllerState × MonitorState × List Message :=
  monitorTick initialController initialMonitor

/-- The dispatch of `open_vent_gate 0 -1 -1 -1` in that scenario. -/
def openScene₁ : ControllerState × List Message :=
  read_and_dispatch openScene₀.1 "open_vent_gate 0 -1 -1 -1"

/-- The controller after the scheduled gate-0 transition settles. -/
def openScene₂ : ControllerState :=
  applyVentTask openScene₁.1

/-- Claim C8: from all gates closed, `open_vent_gate 0 -1 -1 -1` responds
success immediately while every gate slot (including 1–3) is still
closed and the gate-0 transition is merely scheduled; after the settling
delay slot 0 is opened with slots 1–3 untouched, and the next monitor
tick publishes exactly one `evt_vent_gate_state` event carrying
[opened, closed, closed, closed]. -/
theorem C8_open_gate_zero_event :
    openScene₁.2 = [okMsg "open_vent_gate"] ∧
    openScene₁.1.vent_states = List.replicate 4 VentGateState.closed ∧
    openScene₁.1.pending_vent_tasks = [(0, VentGateState.opened)] ∧
    openScene₂.vent_states
      = [VentGateState.opened, VentGateState.closed,
         VentGateState.closed, VentGateState.closed] ∧
    (monitorTick openScene₂ openScene₀.2.1).2.2
      = [ventGateEvt [VentGateState.opened, VentGateState.closed,
           VentGateState.closed, VentGateState.closed]] := by
  refine ⟨by decide, by decide, by decide, by decide, by decide⟩

/-! ## C9 — setting the fan drive frequency -/

/-- Claim C9: dispatching `set_extraction_fan_drive_freq 12.5` from any
controller state sets the fan frequency to 12.5 (`mkRat 25 2`) in the
state paired with the single success response — i.e. before the response
is emitted — and every telemetry message the publisher emits afterwards
(in particular the next one), absent further commands, reports
tel_extraction_fan = 12.5. -/
theorem C9_set_fan_frequency (st : ControllerState) (ms : MonitorState)
    (n : Nat) :
    (read_and_dispatch st "set_extraction_fan_drive_freq 12.5").1.fan_frequency
        = mkRat 25 2 ∧
    (read_and_dispatch st "set_extraction_fan_drive_freq 12.5").2
        = [okMsg "set_extraction_fan_drive_freq"] ∧
    ∀ m ∈ monitorRun n
        (read_and_dispatch st "set_extraction_fan_drive_freq 12.5").1 ms,
      m.command = "telemetry" → m.data = Payload.telemetry (mkRat 25 2) := by
  refine ⟨rfl, rfl, ?_⟩
  intro m hm hc
  exact monitorRun_telemetry n _ ms m hm hc

/-- Witness for C9: from the initial controller the first tick after the
command emits a telemetry message, and it reports 12.5. -/
theorem C9_set_fan_frequency_witness :
    telemetryMsg (mkRat 25 2)
        ∈ monitorRun 1
            (read_and_dispatch initialController
              "set_extraction_fan_drive_freq 12.5").1 initialMonitor ∧
    (telemetryMsg (mkRat 25 2)).data = Payload.telemetry (mkRat 25 2) :=
  ⟨by decide,
   (C9_set_fan_frequency initialController initialMonitor 1).2.2
     (telemetryMsg (mkRat 25 2)) (by decide) (by decide)⟩

/-! ## C10 — every response carries the first token as its command -/

/-- Claim C10: every response line the dispatcher emits for an inbound
line — success, unknown command, arity mismatch, cast failure or handler
exception — has its command field equal to the first whitespace-separated
token of that line. -/
theorem C10_response_command_is_first_token (st : ControllerState)
    (line : String) (m : Message)
    (hm : m ∈ (read_and_dispatch st line).2) :
    m.command = (pyTokens line).headD "" := by
  unfold read_and_dispatch at hm
  by_cases h : pyStrippedEmpty line
  · simp [h] at hm
  · rw [if_neg (by simp [h])] at hm
    rcases htok : pyTokens line with _ | ⟨cmd, args⟩
    · rw [htok] at hm; simp at hm
    · rw [htok] at hm
      simp only [List.headD_cons]
      rcases hlk : dispatch_dict.lookup cmd with _ | tys <;> simp only [hlk] at hm
      · simp at hm; subst hm; rfl
      · by_cases hlen : args.length = tys.length
        · rw [if_neg (by simp [hlen])] at hm
          rcases hc : castArgs tys args with e | vals <;> simp only [hc] at hm
          · simp at hm; subst hm; rfl
          · rcases hi : invokeHandler st cmd vals with ⟨st2, e⟩
            rcases e with _ | e <;> simp [hi] at hm <;> subst hm <;> rfl
        · rw [if_pos hlen] at hm
          simp at hm; subst hm; rfl

/-- Witness for C10: the NotImplementedError response to `foo bar`
carries command `foo`, the line's first token. -/
theorem C10_response_command_witness :
    errMsg "foo" "NotImplementedError" "No such command"
        ∈ (read_and_dispatch initialController "foo bar").2 ∧
    (errMsg "foo" "NotImplementedError" "No such command").command
      = (pyTokens "foo bar").headD "" :=
  ⟨by decide,
   C10_response_command_is_first_token initialController "foo bar"
     (errMsg "foo" "NotImplementedError" "No such command") (by decide)⟩

end ATBuilding
